import Mathlib

/-!
Verification of the npms-analyzer analysis collection engine.

This file gives a shallow embedding of `src/lib/analyze/collect/index.js`
(`checkRepositoryOwnership`, `collect`) and
`src/lib/analyze/download/util/findPackageDir.js` (`isSamePackage`,
`lookForPackageDir`, `findPackageDir`), and proves properties of the
embedded definitions.

JavaScript conventions mirrored by the embedding:
- an absent field is `Option.none`; JS `undefined === undefined` is `true`,
  which matches `none == none` on `Option String`;
- string truthiness: `undefined` and `""` are falsy, every other string truthy;
- lodash `isEmpty` on an object is true iff it has no own enumerable keys,
  so manifests carry an `extra` flag recording whether fields other than
  `name` and `repository` are present.
-/

namespace NpmsAnalyzer

/-- A JS value, as far as truthiness is concerned.  Collector outputs are
opaque JS values; `pickBy` in `collect` keeps only truthy ones. -/
inductive JSVal where
  | vNull
  | vUndefined
  | vFalse
  | vTrue
  | vNum (n : Int)
  | vStr (s : String)
  | vObj (id : Nat)
deriving DecidableEq

/-- JS truthiness of a value (NaN is not modelled). -/
def JSVal.truthy : JSVal → Bool
  | .vNull => false
  | .vUndefined => false
  | .vFalse => false
  | .vTrue => true
  | .vNum n => n != 0
  | .vStr s => s != ""
  | .vObj _ => true

/-- A maintainer entry `{name, email}`; either field may be absent. -/
structure Maintainer where
  name : Option String
  email : Option String
deriving DecidableEq

/-- A `repository` field of a manifest; the `url` may be absent. -/
structure Repository where
  url : Option String
deriving DecidableEq

/-- A package.json manifest.  `extra` records whether the object has own
enumerable fields other than `name` and `repository` (lodash `isEmpty`
looks at all own keys). -/
structure Manifest where
  name : Option String
  repository : Option Repository
  extra : Bool
deriving DecidableEq

/-- lodash `isEmpty` on a manifest object: no own enumerable keys at all. -/
def manifestIsEmpty (m : Manifest) : Bool :=
  m.name == none && m.repository == none && m.extra == false

/-- JS truthiness of `packageJson.repository && packageJson.repository.url`:
an absent `repository`, an absent `url` and an empty-string `url` are falsy. -/
def repoUrlTruthy (m : Manifest) : Bool :=
  match m.repository with
  | none => false
  | some r =>
    match r.url with
    | none => false
    | some s => s != ""

/-- The registry record for a package (`data`): its maintainers. -/
structure PackageData where
  maintainers : List Maintainer
deriving DecidableEq

/-- The downloaded info: `dir`, the manifest read from disk, and the
downloader kind (`'npm'` for registry tarballs, e.g. `'github'` otherwise). -/
structure Downloaded where
  dir : String
  packageJson : Manifest
  downloader : String
deriving DecidableEq

/-- Result of `npmNano.getAsync(name)`: the fetched record's maintainers, a
nano `not_found` rejection, or any other (transport) error. -/
inductive LookupResult where
  | found (maintainers : List Maintainer)
  | missing
  | transportErr
deriving DecidableEq

/-- The registry client: maps a (possibly absent) package name to the
outcome of fetching its record. -/
def Registry : Type := Option String → LookupResult

/-- lodash `intersectionWith(l1, l2, cmp)`: the values of `l1` that `cmp`
relates to some value of `l2` (only its emptiness is consumed by the code). -/
def intersectionWith (l1 l2 : List Maintainer)
    (cmp : Maintainer → Maintainer → Bool) : List Maintainer :=
  l1.filter (fun a => l2.any (fun b => cmp a b))

/-- The maintainer comparator used by `checkRepositoryOwnership`:
`maintainer.name === downloadedMaintainer.name || maintainer.email === downloadedMaintainer.email`. -/
def maintainerMatch (a b : Maintainer) : Bool :=
  a.name == b.name || a.email == b.email

/-- The verifier's observable outcome: the boolean verdict plus whether the
warning-level audit log (`log.warn`) fired during the call. -/
structure OwnershipOutcome where
  verdict : Bool
  warned : Bool
deriving DecidableEq

/-- Shallow embedding of `checkRepositoryOwnership(data, packageJson,
downloaded, npmNano)` (src/lib/analyze/collect/index.js, lines 24-54).
`Except.error ()` is a rejected promise (an error that is not nano
`not_found`); note that the `.tap` warning only runs on the fulfillment path
of `getAsync`, so neither the empty-manifest verdict nor the `not_found`
catch logs a warning. -/
def checkRepositoryOwnership (data : PackageData) (packageJson : Manifest)
    (downloaded : Downloaded) (npmNano : Registry) :
    Except Unit OwnershipOutcome :=
  if packageJson.name == downloaded.packageJson.name then
    .ok ⟨true, false⟩
  else if !repoUrlTruthy packageJson && !repoUrlTruthy downloaded.packageJson then
    .ok ⟨true, false⟩
  else if manifestIsEmpty downloaded.packageJson then
    .ok ⟨false, false⟩
  else
    match npmNano downloaded.packageJson.name with
    | .found ms =>
      let isMaintainer :=
        decide ((intersectionWith data.maintainers ms maintainerMatch).length > 0)
      .ok ⟨isMaintainer, !isMaintainer⟩
    | .missing => .ok ⟨false, false⟩
    | .transportErr => .error ()

/-- The outcome of one collector's asynchronous operation: a fulfilled JS
value or a rejection.  Collector internals are out of scope; each collector's
operation is an opaque input to the orchestrator. -/
inductive Outcome where
  | success (v : JSVal)
  | failure
deriving DecidableEq

/-- The test `o.succeeded` is true iff the operation fulfilled. -/
def Outcome.succeeded : Outcome → Bool
  | .success _ => true
  | .failure => false

/-- The test `o.truthySuccess` is true unless the operation fulfilled with a falsy
value (real collectors fulfill with objects, which are always truthy). -/
def Outcome.truthySuccess : Outcome → Bool
  | .success v => v.truthy
  | .failure => true

/-- One entry of the mapping handed to the aggregator: either a pending
operation or the falsy skip sentinel produced by `cond && collector(...)`. -/
inductive Entry where
  | skip
  | run (o : Outcome)
deriving DecidableEq

/-- The mapping `collect` hands to `promisePropsSettled`, keyed by the four
collector names. -/
structure PropsInput where
  metadata : Entry
  npm : Entry
  github : Entry
  source : Entry
deriving DecidableEq

/-- A mapping from collector name to an optionally-present JS value; both the
aggregator's output and the final `CollectedResult` have this shape. -/
structure CollectedResult where
  metadata : Option JSVal
  npm : Option JSVal
  github : Option JSVal
  source : Option JSVal
deriving DecidableEq

/-- Modelled from the spec: one entry of `promisePropsSettled`
(src/lib/analyze/collect/util/promisePropsSettled.js is not part of the
sources; §4.1 of the spec specifies it).  A skipped entry is absent, a
failed operation is absent (its failure only logged), a fulfilled operation
contributes its value. -/
def settleEntry : Entry → Option JSVal
  | .skip => none
  | .run (.success v) => some v
  | .run .failure => none

/-- Modelled from the spec: `promisePropsSettled` (§4.1 Partial-Failure
Aggregator).  Waits for every non-skipped operation and returns only the
fulfilled ones; one failure never discards the others or fails the call. -/
def promisePropsSettled (p : PropsInput) : CollectedResult :=
  ⟨settleEntry p.metadata, settleEntry p.npm, settleEntry p.github, settleEntry p.source⟩

/-- Keep a present value only when it is truthy (one entry of lodash
`pickBy` with the default identity predicate). -/
def keepTruthy (v : JSVal) : Option JSVal :=
  if v.truthy then some v else none

/-- lodash `pickBy(collected)`: drop the falsy entries of the result. -/
def pickBy (r : CollectedResult) : CollectedResult :=
  ⟨r.metadata.bind keepTruthy, r.npm.bind keepTruthy,
   r.github.bind keepTruthy, r.source.bind keepTruthy⟩

/-- The (opaque) outcomes the four collectors' operations would have if
invoked on this package. -/
structure CollectorRuns where
  metadata : Outcome
  npm : Outcome
  github : Outcome
  source : Outcome
deriving DecidableEq

/-- Shallow embedding of `collect(data, packageJson, downloaded, npmNano,
options)` (src/lib/analyze/collect/index.js, lines 82-105).  The ownership
check gates the `github` collector; `isSourceOwner = downloaded.downloader
=== 'npm' || isRepositoryOwner` gates the `source` collector; a gated-out
collector contributes the falsy skip sentinel via `cond && collector(...)`.
A rejection of `checkRepositoryOwnership` rejects the whole call. -/
def collect (data : PackageData) (packageJson : Manifest)
    (downloaded : Downloaded) (npmNano : Registry) (runs : CollectorRuns) :
    Except Unit CollectedResult :=
  match checkRepositoryOwnership data packageJson downloaded npmNano with
  | .error e => .error e
  | .ok out =>
    let isRepositoryOwner := out.verdict
    let isSourceOwner := downloaded.downloader == "npm" || isRepositoryOwner
    let settled := promisePropsSettled
      ⟨.run runs.metadata,
       .run runs.npm,
       if isRepositoryOwner then .run runs.github else .skip,
       if isSourceOwner then .run runs.source else .skip⟩
    .ok (pickBy settled)

/-! ## findPackageDir (src/lib/analyze/download/util/findPackageDir.js) -/

/-- Result of `loadJsonFile` on `<dir>/package.json`: a parsed manifest, a
missing file (`ENOENT`), or any other read/parse error. -/
inductive ReadResult where
  | ok (m : Manifest)
  | enoent
  | err
deriving DecidableEq

/-- The downloaded tree as the resolver observes it: `entries` is the list of
relative paths `globby('**/package.json', ...)` yields (deterministic order,
symlinked directories not followed), and `read dir` is the result of
`loadJsonFile(dir + '/package.json')`. -/
structure FileSys where
  entries : List String
  read : String → ReadResult

/-- Node `path.dirname` on a relative slash-separated path: everything before the
last slash, or `"."` when there is none. -/
def jsDirname (s : String) : String :=
  let cs := s.data
  if cs.contains '/' then
    String.mk (((cs.reverse.dropWhile (fun c => c ≠ '/')).drop 1).reverse)
  else "."

/-- Node `path.join(dir, rel)` for the already-normalized relative directories the
resolver builds (never `"."`, which the root filter removed). -/
def jsJoin (dir rel : String) : String :=
  dir ++ "/" ++ rel

/-- The manifest `isSamePackage` ends up comparing against: read errors of
either kind degrade to the empty object `{}`. -/
def readManifestOrEmpty (fs : FileSys) (dir : String) : Manifest :=
  match fs.read dir with
  | .ok m => m
  | .enoent => ⟨none, none, false⟩
  | .err => ⟨none, none, false⟩

/-- Shallow embedding of `isSamePackage(packageJson, dir)` (findPackageDir.js,
lines 53-66): `packageJson.name === downloadedPackageJson.name` after the
error-swallowing read. -/
def isSamePackage (packageJson : Manifest) (dir : String) (fs : FileSys) : Bool :=
  packageJson.name == (readManifestOrEmpty fs dir).name

/-- The candidate directories `lookForPackageDir` tests, in enumeration
order: every matched `package.json` except the root one, mapped to its
directory joined onto `dir`. -/
def candidateDirs (dir : String) (fs : FileSys) : List String :=
  (fs.entries.filter (fun f => f != "package.json")).map
    (fun f => jsJoin dir (jsDirname f))

/-- Shallow embedding of `lookForPackageDir(packageJson, dir)`
(findPackageDir.js, lines 17-43): the promise-chained `reduce` that keeps an
already-found directory and otherwise tests the next candidate (candidates
always contain a slash, so the JS truthiness test on the accumulator
coincides with `Option`). -/
def lookForPackageDir (packageJson : Manifest) (dir : String) (fs : FileSys) :
    Option String :=
  (candidateDirs dir fs).foldl
    (fun acc d =>
      match acc with
      | some p => some p
      | none => if isSamePackage packageJson d fs then some d else none)
    none

/-- Shallow embedding of `findPackageDir(packageJson, dir)`
(findPackageDir.js, lines 85-92): root short-circuit, glob search, and the
final `packageDir || dir` fallback (an empty-string `packageDir` is falsy). -/
def findPackageDir (packageJson : Manifest) (dir : String) (fs : FileSys) :
    String :=
  let packageDir : Option String :=
    if isSamePackage packageJson dir fs then some dir
    else lookForPackageDir packageJson dir fs
  match packageDir with
  | some d => if d == "" then dir else d
  | none => dir

/-- A concrete downloaded tree used for evaluating the resolver: a
mono-repo whose root manifest is named `zzz`, whose `packages/foo` manifest
is unreadable, and whose `packages/bar` manifest is named `a`. -/
def fsSearch : FileSys :=
  ⟨["package.json", "packages/foo/package.json", "packages/bar/package.json"],
   fun d =>
     if d = "root" then .ok ⟨some "zzz", none, false⟩
     else if d = "root/packages/foo" then .err
     else if d = "root/packages/bar" then .ok ⟨some "a", none, false⟩
     else .enoent⟩

/-! ## Helper lemmas -/

theorem manifestIsEmpty_iff (m : Manifest) :
    manifestIsEmpty m = true ↔
      m.name = none ∧ m.repository = none ∧ m.extra = false := by
  simp [manifestIsEmpty, and_assoc]

theorem intersection_pos_iff (l1 l2 : List Maintainer) :
    0 < (intersectionWith l1 l2 maintainerMatch).length ↔
      ∃ m ∈ l1, ∃ d ∈ l2, maintainerMatch m d = true := by
  rw [List.length_pos_iff_exists_mem]
  simp [intersectionWith, List.mem_filter, List.any_eq_true]

/-- On the registry-lookup path with a fetched record, the verifier yields
the maintainer-intersection verdict and warns exactly when it is false. -/
theorem check_found_path (data : PackageData) (packageJson : Manifest)
    (downloaded : Downloaded) (npmNano : Registry) (ms : List Maintainer)
    (hc1 : (packageJson.name == downloaded.packageJson.name) = false)
    (hc2 : (!repoUrlTruthy packageJson &&
            !repoUrlTruthy downloaded.packageJson) = false)
    (hc3 : manifestIsEmpty downloaded.packageJson = false)
    (hm : npmNano downloaded.packageJson.name = .found ms) :
    checkRepositoryOwnership data packageJson downloaded npmNano =
      .ok ⟨decide (0 < (intersectionWith data.maintainers ms maintainerMatch).length),
           !decide (0 < (intersectionWith data.maintainers ms maintainerMatch).length)⟩ := by
  unfold checkRepositoryOwnership
  simp only [hc1, hc2, hc3, hm, Bool.false_eq_true, if_false]

/-! ## Theorems for the claims -/

/-- C6: the verifier returns true, touching no registry, when the latest
manifest's name equals the downloaded manifest's name, and also when both
manifests carry no (truthy) repository URL — in particular when neither
declares a repository URL at all.  The conclusion holds for every registry
client, so no lookup influences it. -/
theorem check_shortcircuit_true (data : PackageData) (packageJson : Manifest)
    (downloaded : Downloaded)
    (h : packageJson.name = downloaded.packageJson.name ∨
      (repoUrlTruthy packageJson = false ∧
       repoUrlTruthy downloaded.packageJson = false)) :
    ∀ npmNano : Registry,
      checkRepositoryOwnership data packageJson downloaded npmNano =
        .ok ⟨true, false⟩ := by
  intro reg
  unfold checkRepositoryOwnership
  rcases h with h | ⟨h1, h2⟩
  · simp [h]
  · cases hb : (packageJson.name == downloaded.packageJson.name) <;>
      simp [hb, h1, h2]

/-- C6 witness: both manifests without a repository URL (names differing),
with a registry that would reject every lookup. -/
theorem check_shortcircuit_true_witness :
    (repoUrlTruthy ⟨some "a", none, false⟩ = false ∧
     repoUrlTruthy ⟨some "b", none, false⟩ = false) ∧
    checkRepositoryOwnership ⟨[]⟩ ⟨some "a", none, false⟩
      ⟨"d", ⟨some "b", none, false⟩, "github"⟩ (fun _ => .transportErr) =
      .ok ⟨true, false⟩ :=
  ⟨⟨rfl, rfl⟩,
   check_shortcircuit_true ⟨[]⟩ ⟨some "a", none, false⟩
     ⟨"d", ⟨some "b", none, false⟩, "github"⟩ (Or.inr ⟨rfl, rfl⟩)
     (fun _ => .transportErr)⟩

/-- C10: when the latest manifest has no `name` and the downloaded manifest
is entirely empty, the `===` comparison of the two absent names succeeds,
so the verifier returns true for every registry client — the empty-manifest
fail-closed branch is bypassed. -/
theorem check_absent_names_bypass (data : PackageData) (packageJson : Manifest)
    (downloaded : Downloaded)
    (hname : packageJson.name = none)
    (hempty : manifestIsEmpty downloaded.packageJson = true) :
    ∀ npmNano : Registry,
      checkRepositoryOwnership data packageJson downloaded npmNano =
        .ok ⟨true, false⟩ := by
  intro reg
  obtain ⟨hdn, -, -⟩ := (manifestIsEmpty_iff _).mp hempty
  unfold checkRepositoryOwnership
  simp [hname, hdn]

/-- C10 witness: a nameless latest manifest (with a repository URL) and an
empty downloaded manifest yield verdict true. -/
theorem check_absent_names_bypass_witness :
    ((⟨none, some ⟨some "git://r"⟩, false⟩ : Manifest).name = none ∧
     manifestIsEmpty ⟨none, none, false⟩ = true) ∧
    checkRepositoryOwnership ⟨[]⟩ ⟨none, some ⟨some "git://r"⟩, false⟩
      ⟨"d", ⟨none, none, false⟩, "github"⟩ (fun _ => .transportErr) =
      .ok ⟨true, false⟩ :=
  ⟨⟨rfl, rfl⟩,
   check_absent_names_bypass ⟨[]⟩ ⟨none, some ⟨some "git://r"⟩, false⟩
     ⟨"d", ⟨none, none, false⟩, "github"⟩ rfl rfl (fun _ => .transportErr)⟩

/-- C2 counterexample: the downloaded manifest is entirely empty, yet the
verdict is true, because the latest manifest declares no repository URL and
the both-URLs-absent short-circuit fires first.  This refutes "verdict false
regardless of the other inputs". -/
theorem check_empty_manifest_not_fail_closed :
    checkRepositoryOwnership ⟨[]⟩ ⟨some "a", none, false⟩
      ⟨"d", ⟨none, none, false⟩, "github"⟩ (fun _ => .transportErr) =
      .ok ⟨true, false⟩ := rfl

/-- C2 amended: an entirely empty downloaded manifest yields verdict false
provided neither earlier short-circuit fires — i.e. the latest manifest has
a name (the absent downloaded name then differs) and a truthy repository
URL.  No warning is logged on this path. -/
theorem check_empty_manifest_fail_closed (data : PackageData)
    (packageJson : Manifest) (downloaded : Downloaded) (npmNano : Registry)
    (hempty : manifestIsEmpty downloaded.packageJson = true)
    (hname : packageJson.name ≠ none)
    (hurl : repoUrlTruthy packageJson = true) :
    checkRepositoryOwnership data packageJson downloaded npmNano =
      .ok ⟨false, false⟩ := by
  obtain ⟨hdn, -, -⟩ := (manifestIsEmpty_iff _).mp hempty
  obtain ⟨n, hn⟩ := Option.ne_none_iff_exists'.mp hname
  unfold checkRepositoryOwnership
  simp [hn, hdn, hurl, hempty]

/-- C2 amended witness: latest manifest with name and repository URL,
empty downloaded manifest. -/
theorem check_empty_manifest_fail_closed_witness :
    (manifestIsEmpty ⟨none, none, false⟩ = true ∧
     (⟨some "a", some ⟨some "git://r"⟩, false⟩ : Manifest).name ≠ none ∧
     repoUrlTruthy ⟨some "a", some ⟨some "git://r"⟩, false⟩ = true) ∧
    checkRepositoryOwnership ⟨[]⟩ ⟨some "a", some ⟨some "git://r"⟩, false⟩
      ⟨"d", ⟨none, none, false⟩, "github"⟩ (fun _ => .missing) =
      .ok ⟨false, false⟩ :=
  ⟨⟨rfl, by decide, rfl⟩,
   check_empty_manifest_fail_closed ⟨[]⟩ ⟨some "a", some ⟨some "git://r"⟩, false⟩
     ⟨"d", ⟨none, none, false⟩, "github"⟩ (fun _ => .missing) rfl (by decide) rfl⟩

/-- C4: on the registry-lookup path (names differ, not both repository URLs
falsy, downloaded manifest non-empty) with a fetched record, the verdict is
true iff some maintainer of the original package matches some maintainer of
the fetched record by name or by email (`===` on possibly-absent fields). -/
theorem check_maintainer_intersection (data : PackageData)
    (packageJson : Manifest) (downloaded : Downloaded) (npmNano : Registry)
    (ms : List Maintainer)
    (hname : (packageJson.name == downloaded.packageJson.name) = false)
    (hurl : (!repoUrlTruthy packageJson &&
             !repoUrlTruthy downloaded.packageJson) = false)
    (hne : manifestIsEmpty downloaded.packageJson = false)
    (hreg : npmNano downloaded.packageJson.name = .found ms) :
    ∃ out, checkRepositoryOwnership data packageJson downloaded npmNano =
        .ok out ∧
      (out.verdict = true ↔
        ∃ m ∈ data.maintainers, ∃ d ∈ ms,
          (m.name == d.name || m.email == d.email) = true) := by
  refine ⟨⟨decide (0 < (intersectionWith data.maintainers ms maintainerMatch).length),
           !decide (0 < (intersectionWith data.maintainers ms maintainerMatch).length)⟩,
         ?_, ?_⟩
  · unfold checkRepositoryOwnership
    simp [hname, hurl, hne, hreg]
  · simpa [maintainerMatch] using intersection_pos_iff data.maintainers ms

/-- C4 witness: a single maintainer matching by email (names differ) makes
the verdict true. -/
theorem check_maintainer_intersection_witness :
    ∃ out, checkRepositoryOwnership ⟨[⟨some "x", some "x@e"⟩]⟩
        ⟨some "a", some ⟨some "git://r"⟩, false⟩
        ⟨"d", ⟨some "b", none, false⟩, "github"⟩
        (fun _ => .found [⟨some "y", some "x@e"⟩]) = .ok out ∧
      (out.verdict = true ↔
        ∃ m ∈ [(⟨some "x", some "x@e"⟩ : Maintainer)],
          ∃ d ∈ [(⟨some "y", some "x@e"⟩ : Maintainer)],
            (m.name == d.name || m.email == d.email) = true) :=
  check_maintainer_intersection ⟨[⟨some "x", some "x@e"⟩]⟩
    ⟨some "a", some ⟨some "git://r"⟩, false⟩
    ⟨"d", ⟨some "b", none, false⟩, "github"⟩
    (fun _ => .found [⟨some "y", some "x@e"⟩])
    [⟨some "y", some "x@e"⟩] rfl rfl rfl rfl

/-- C5: on the registry-lookup path, a nano `not_found` rejection is caught
and yields verdict false (with no warning), while any other lookup error
rejects `checkRepositoryOwnership` itself and with it the whole `collect`
call, which then produces no result at all. -/
theorem check_lookup_errors (data : PackageData) (packageJson : Manifest)
    (downloaded : Downloaded) (npmNano : Registry) (runs : CollectorRuns)
    (hname : (packageJson.name == downloaded.packageJson.name) = false)
    (hurl : (!repoUrlTruthy packageJson &&
             !repoUrlTruthy downloaded.packageJson) = false)
    (hne : manifestIsEmpty downloaded.packageJson = false) :
    (npmNano downloaded.packageJson.name = .missing →
      checkRepositoryOwnership data packageJson downloaded npmNano =
        .ok ⟨false, false⟩) ∧
    (npmNano downloaded.packageJson.name = .transportErr →
      checkRepositoryOwnership data packageJson downloaded npmNano =
        .error () ∧
      collect data packageJson downloaded npmNano runs = .error ()) := by
  constructor
  · intro hreg
    unfold checkRepositoryOwnership
    simp [hname, hurl, hne, hreg]
  · intro hreg
    have hchk : checkRepositoryOwnership data packageJson downloaded npmNano =
        .error () := by
      unfold checkRepositoryOwnership
      simp [hname, hurl, hne, hreg]
    exact ⟨hchk, by unfold collect; rw [hchk]⟩

/-- C5 witness: with a registry whose every lookup is a transport error, the
verifier and the whole collect call reject. -/
theorem check_lookup_errors_witness :
    checkRepositoryOwnership ⟨[]⟩ ⟨some "a", some ⟨some "git://r"⟩, false⟩
      ⟨"d", ⟨some "b", none, false⟩, "github"⟩ (fun _ => .transportErr) =
      .error () ∧
    collect ⟨[]⟩ ⟨some "a", some ⟨some "git://r"⟩, false⟩
      ⟨"d", ⟨some "b", none, false⟩, "github"⟩ (fun _ => .transportErr)
      ⟨.success (.vObj 0), .success (.vObj 1), .success (.vObj 2),
       .success (.vObj 3)⟩ = .error () :=
  (check_lookup_errors ⟨[]⟩ ⟨some "a", some ⟨some "git://r"⟩, false⟩
    ⟨"d", ⟨some "b", none, false⟩, "github"⟩ (fun _ => .transportErr)
    ⟨.success (.vObj 0), .success (.vObj 1), .success (.vObj 2),
     .success (.vObj 3)⟩ rfl rfl rfl).2 rfl

/-- C7 counterexample: a false verdict from the empty-manifest branch emits
no warning (`log.warn` lives in a `.tap` that only runs on the registry
lookup's fulfillment path), refuting "every false verdict warns". -/
theorem check_false_verdict_without_warning :
    checkRepositoryOwnership ⟨[]⟩ ⟨some "a", some ⟨some "git://r"⟩, false⟩
      ⟨"d", ⟨none, none, false⟩, "github"⟩ (fun _ => .missing) =
      .ok ⟨false, false⟩ := rfl

/-- C7 amended: the warning fires exactly when the false verdict comes from
the maintainer-intersection check — i.e. the lookup path was reached and the
registry returned a record; the empty-manifest and not-found false verdicts
emit no warning. -/
theorem check_warning_iff (data : PackageData) (packageJson : Manifest)
    (downloaded : Downloaded) (npmNano : Registry) (out : OwnershipOutcome)
    (h : checkRepositoryOwnership data packageJson downloaded npmNano =
      .ok out) :
    out.warned = true ↔
      (out.verdict = false ∧
       (packageJson.name == downloaded.packageJson.name) = false ∧
       (!repoUrlTruthy packageJson &&
        !repoUrlTruthy downloaded.packageJson) = false ∧
       manifestIsEmpty downloaded.packageJson = false ∧
       ∃ ms, npmNano downloaded.packageJson.name = .found ms) := by
  cases hc1 : (packageJson.name == downloaded.packageJson.name) with
  | true =>
    have he : checkRepositoryOwnership data packageJson downloaded npmNano =
        .ok ⟨true, false⟩ := by
      unfold checkRepositoryOwnership
      simp [hc1]
    rw [he] at h
    injection h with h2
    subst h2
    simp [hc1]
  | false =>
  cases hc2 : (!repoUrlTruthy packageJson &&
      !repoUrlTruthy downloaded.packageJson) with
  | true =>
    have he : checkRepositoryOwnership data packageJson downloaded npmNano =
        .ok ⟨true, false⟩ := by
      unfold checkRepositoryOwnership
      simp [hc1, hc2]
    rw [he] at h
    injection h with h2
    subst h2
    simp [hc2]
  | false =>
  cases hc3 : manifestIsEmpty downloaded.packageJson with
  | true =>
    have he : checkRepositoryOwnership data packageJson downloaded npmNano =
        .ok ⟨false, false⟩ := by
      unfold checkRepositoryOwnership
      simp [hc1, hc2, hc3]
    rw [he] at h
    injection h with h2
    subst h2
    simp [hc3]
  | false =>
  rcases hm : npmNano downloaded.packageJson.name with ms | - | -
  · rw [check_found_path data packageJson downloaded npmNano ms hc1 hc2 hc3 hm] at h
    injection h with h2
    subst h2
    simp [hc1, hc2, hc3, hm]
  · have he : checkRepositoryOwnership data packageJson downloaded npmNano =
        .ok ⟨false, false⟩ := by
      unfold checkRepositoryOwnership
      simp [hc1, hc2, hc3, hm]
    rw [he] at h
    injection h with h2
    subst h2
    simp [hm]
  · have he : checkRepositoryOwnership data packageJson downloaded npmNano =
        .error () := by
      unfold checkRepositoryOwnership
      simp [hc1, hc2, hc3, hm]
    rw [he] at h
    exact Except.noConfusion h

/-- C7 amended witness: disjoint maintainer sets on the lookup path give a
false verdict with the warning fired. -/
theorem check_warning_iff_witness :
    checkRepositoryOwnership ⟨[⟨some "x", some "x@e"⟩]⟩
      ⟨some "a", some ⟨some "git://r"⟩, false⟩
      ⟨"d", ⟨some "b", none, false⟩, "github"⟩
      (fun _ => .found [⟨some "y", some "y@e"⟩]) = .ok ⟨false, true⟩ ∧
    ((⟨false, true⟩ : OwnershipOutcome).warned = true ↔
      ((⟨false, true⟩ : OwnershipOutcome).verdict = false ∧
       ((some "a" : Option String) == some "b") = false ∧
       (!repoUrlTruthy ⟨some "a", some ⟨some "git://r"⟩, false⟩ &&
        !repoUrlTruthy ⟨some "b", none, false⟩) = false ∧
       manifestIsEmpty ⟨some "b", none, false⟩ = false ∧
       ∃ ms, (fun _ : Option String => LookupResult.found [⟨some "y", some "y@e"⟩])
         (some "b") = .found ms)) :=
  ⟨rfl,
   check_warning_iff ⟨[⟨some "x", some "x@e"⟩]⟩
     ⟨some "a", some ⟨some "git://r"⟩, false⟩
     ⟨"d", ⟨some "b", none, false⟩, "github"⟩
     (fun _ => .found [⟨some "y", some "y@e"⟩]) ⟨false, true⟩ rfl⟩

/-- C1: whenever the ownership check resolves, `collect` resolves and, as
long as fulfilled collectors fulfill with truthy (object) values, the
`github` key is present iff the verdict is true and the github collector's
operation fulfilled, and the `source` key is present iff the source
collector's operation fulfilled and (the downloader is the registry-tarball
`'npm'` one or the verdict is true).  In particular no key appears for a
collector whose applicability condition was false. -/
theorem collect_trust_gating (data : PackageData) (packageJson : Manifest)
    (downloaded : Downloaded) (npmNano : Registry) (runs : CollectorRuns)
    (out : OwnershipOutcome)
    (hchk : checkRepositoryOwnership data packageJson downloaded npmNano =
      .ok out)
    (hg : runs.github.truthySuccess = true)
    (hs : runs.source.truthySuccess = true) :
    ∃ r, collect data packageJson downloaded npmNano runs = .ok r ∧
      (r.github ≠ none ↔
        (out.verdict = true ∧ runs.github.succeeded = true)) ∧
      (r.source ≠ none ↔
        (runs.source.succeeded = true ∧
         (downloaded.downloader = "npm" ∨ out.verdict = true))) := by
  refine ⟨_, by unfold collect; rw [hchk], ?_, ?_⟩
  · rcases hgo : runs.github with v | -
    · rw [hgo] at hg
      have hvt : v.truthy = true := hg
      cases hv : out.verdict <;>
        simp [promisePropsSettled, settleEntry, pickBy, keepTruthy, hgo, hv,
          Outcome.succeeded, hvt]
    · cases hv : out.verdict <;>
        simp [promisePropsSettled, settleEntry, pickBy, keepTruthy, hgo, hv,
          Outcome.succeeded]
  · rcases hso : runs.source with v | -
    · rw [hso] at hs
      have hvt : v.truthy = true := hs
      by_cases hnpm : downloaded.downloader = "npm"
      · simp [promisePropsSettled, settleEntry, pickBy, keepTruthy, hso, hnpm,
          Outcome.succeeded, hvt]
      · cases hv : out.verdict <;>
          simp [promisePropsSettled, settleEntry, pickBy, keepTruthy, hso,
            hnpm, hv, Outcome.succeeded, hvt]
    · by_cases hnpm : downloaded.downloader = "npm"
      · simp [promisePropsSettled, settleEntry, pickBy, keepTruthy, hso,
          hnpm, Outcome.succeeded]
      · cases hv : out.verdict <;>
          simp [promisePropsSettled, settleEntry, pickBy, keepTruthy, hso,
            hnpm, hv, Outcome.succeeded]

/-- C1 witness: registry-tarball download (`downloader = "npm"`) with a
false ownership verdict (empty downloaded manifest, latest manifest with a
repository URL): the source key is present, the github key is not. -/
theorem collect_trust_gating_witness :
    checkRepositoryOwnership ⟨[]⟩ ⟨some "a", some ⟨some "git://r"⟩, false⟩
      ⟨"d", ⟨none, none, false⟩, "npm"⟩ (fun _ => .missing) =
      .ok ⟨false, false⟩ ∧
    (∃ r, collect ⟨[]⟩ ⟨some "a", some ⟨some "git://r"⟩, false⟩
        ⟨"d", ⟨none, none, false⟩, "npm"⟩ (fun _ => .missing)
        ⟨.success (.vObj 0), .success (.vObj 1), .success (.vObj 2),
         .success (.vObj 3)⟩ = .ok r ∧
      (r.github ≠ none ↔
        ((⟨false, false⟩ : OwnershipOutcome).verdict = true ∧
         (Outcome.success (.vObj 2)).succeeded = true)) ∧
      (r.source ≠ none ↔
        ((Outcome.success (.vObj 3)).succeeded = true ∧
         ((⟨"d", ⟨none, none, false⟩, "npm"⟩ : Downloaded).downloader = "npm" ∨
          (⟨false, false⟩ : OwnershipOutcome).verdict = true)))) :=
  ⟨rfl,
   collect_trust_gating ⟨[]⟩ ⟨some "a", some ⟨some "git://r"⟩, false⟩
     ⟨"d", ⟨none, none, false⟩, "npm"⟩ (fun _ => .missing)
     ⟨.success (.vObj 0), .success (.vObj 1), .success (.vObj 2),
      .success (.vObj 3)⟩ ⟨false, false⟩ rfl rfl rfl⟩

/-- C3: whenever the ownership check resolves, `collect` resolves (never
rejects on a collector failure), and — fulfilled collectors fulfilling with
truthy values — each key is present iff that collector was applicable and
its operation fulfilled: one collector's failure never disturbs the
others' keys. -/
theorem collect_partial_failure (data : PackageData) (packageJson : Manifest)
    (downloaded : Downloaded) (npmNano : Registry) (runs : CollectorRuns)
    (out : OwnershipOutcome)
    (hchk : checkRepositoryOwnership data packageJson downloaded npmNano =
      .ok out)
    (hm : runs.metadata.truthySuccess = true)
    (hn : runs.npm.truthySuccess = true)
    (hg : runs.github.truthySuccess = true)
    (hs : runs.source.truthySuccess = true) :
    ∃ r, collect data packageJson downloaded npmNano runs = .ok r ∧
      (r.metadata ≠ none ↔ runs.metadata.succeeded = true) ∧
      (r.npm ≠ none ↔ runs.npm.succeeded = true) ∧
      (r.github ≠ none ↔
        (out.verdict = true ∧ runs.github.succeeded = true)) ∧
      (r.source ≠ none ↔
        (runs.source.succeeded = true ∧
         (downloaded.downloader = "npm" ∨ out.verdict = true))) := by
  refine ⟨_, by unfold collect; rw [hchk], ?_, ?_, ?_, ?_⟩
  · rcases hmo : runs.metadata with v | -
    · rw [hmo] at hm
      have hvt : v.truthy = true := hm
      simp [promisePropsSettled, settleEntry, pickBy, keepTruthy, hmo,
        Outcome.succeeded, hvt]
    · simp [promisePropsSettled, settleEntry, pickBy, keepTruthy, hmo,
        Outcome.succeeded]
  · rcases hno : runs.npm with v | -
    · rw [hno] at hn
      have hvt : v.truthy = true := hn
      simp [promisePropsSettled, settleEntry, pickBy, keepTruthy, hno,
        Outcome.succeeded, hvt]
    · simp [promisePropsSettled, settleEntry, pickBy, keepTruthy, hno,
        Outcome.succeeded]
  · rcases hgo : runs.github with v | -
    · rw [hgo] at hg
      have hvt : v.truthy = true := hg
      cases hv : out.verdict <;>
        simp [promisePropsSettled, settleEntry, pickBy, keepTruthy, hgo, hv,
          Outcome.succeeded, hvt]
    · cases hv : out.verdict <;>
        simp [promisePropsSettled, settleEntry, pickBy, keepTruthy, hgo, hv,
          Outcome.succeeded]
  · rcases hso : runs.source with v | -
    · rw [hso] at hs
      have hvt : v.truthy = true := hs
      by_cases hnpm : downloaded.downloader = "npm"
      · simp [promisePropsSettled, settleEntry, pickBy, keepTruthy, hso, hnpm,
          Outcome.succeeded, hvt]
      · cases hv : out.verdict <;>
          simp [promisePropsSettled, settleEntry, pickBy, keepTruthy, hso,
            hnpm, hv, Outcome.succeeded, hvt]
    · by_cases hnpm : downloaded.downloader = "npm"
      · simp [promisePropsSettled, settleEntry, pickBy, keepTruthy, hso,
          hnpm, Outcome.succeeded]
      · cases hv : out.verdict <;>
          simp [promisePropsSettled, settleEntry, pickBy, keepTruthy, hso,
            hnpm, hv, Outcome.succeeded]

/-- C3 witness: ownership verdict true (equal names), `npm` collector rigged
to fail, the other three fulfilling: the call resolves with exactly the
three succeeding keys. -/
theorem collect_partial_failure_witness :
    checkRepositoryOwnership ⟨[]⟩ ⟨some "a", none, false⟩
      ⟨"d", ⟨some "a", none, false⟩, "github"⟩ (fun _ => .missing) =
      .ok ⟨true, false⟩ ∧
    (∃ r, collect ⟨[]⟩ ⟨some "a", none, false⟩
        ⟨"d", ⟨some "a", none, false⟩, "github"⟩ (fun _ => .missing)
        ⟨.success (.vObj 0), .failure, .success (.vObj 2),
         .success (.vObj 3)⟩ = .ok r ∧
      (r.metadata ≠ none ↔ (Outcome.success (.vObj 0)).succeeded = true) ∧
      (r.npm ≠ none ↔ Outcome.failure.succeeded = true) ∧
      (r.github ≠ none ↔
        ((⟨true, false⟩ : OwnershipOutcome).verdict = true ∧
         (Outcome.success (.vObj 2)).succeeded = true)) ∧
      (r.source ≠ none ↔
        ((Outcome.success (.vObj 3)).succeeded = true ∧
         ((⟨"d", ⟨some "a", none, false⟩, "github"⟩ : Downloaded).downloader = "npm" ∨
          (⟨true, false⟩ : OwnershipOutcome).verdict = true)))) :=
  ⟨rfl,
   collect_partial_failure ⟨[]⟩ ⟨some "a", none, false⟩
     ⟨"d", ⟨some "a", none, false⟩, "github"⟩ (fun _ => .missing)
     ⟨.success (.vObj 0), .failure, .success (.vObj 2), .success (.vObj 3)⟩
     ⟨true, false⟩ rfl rfl rfl rfl rfl⟩

/-- The search fold keeps an already-found directory untouched. -/
theorem foldl_firstMatch_some (p : String → Bool) (l : List String)
    (x : String) :
    l.foldl
      (fun acc d =>
        match acc with
        | some q => some q
        | none => if p d then some d else none)
      (some x) = some x := by
  induction l with
  | nil => rfl
  | cons a t ih => exact ih

/-- The promise-chained reduce of `lookForPackageDir` computes the first
candidate that matches, i.e. `List.find?`. -/
theorem lookForPackageDir_eq_find (packageJson : Manifest) (dir : String)
    (fs : FileSys) :
    lookForPackageDir packageJson dir fs =
      (candidateDirs dir fs).find?
        (fun c => isSamePackage packageJson c fs) := by
  unfold lookForPackageDir
  generalize candidateDirs dir fs = l
  induction l with
  | nil => rfl
  | cons a t ih =>
    rw [List.foldl_cons, List.find?_cons]
    cases hp : isSamePackage packageJson a fs
    · simpa [hp] using ih
    · simp only [hp]
      exact foldl_firstMatch_some (fun c => isSamePackage packageJson c fs) t a

theorem jsJoin_ne_empty (a b : String) : jsJoin a b ≠ "" := by
  intro h
  have h1 : (jsJoin a b).length = 0 := by rw [h]; rfl
  have h2 : (jsJoin a b).length = a.length + String.length "/" + b.length := by
    simp [jsJoin, String.length_append]
  have h3 : String.length "/" = 1 := rfl
  omega

/-- Every candidate directory the resolver builds carries a slash, so it is
never the empty string. -/
theorem candidateDirs_ne_empty (dir : String) (fs : FileSys) (d : String)
    (hd : d ∈ candidateDirs dir fs) : d ≠ "" := by
  simp only [candidateDirs, List.mem_map] at hd
  obtain ⟨f, -, rfl⟩ := hd
  exact jsJoin_ne_empty dir (jsDirname f)

/-- C9: when the root directory's own manifest carries the target name, the
resolver returns the root unchanged, and it does so whatever the glob
enumeration contains — no traversal influences the result. -/
theorem findPackageDir_root_match (packageJson : Manifest) (dir : String)
    (fs : FileSys) (m : Manifest)
    (hread : fs.read dir = .ok m) (hname : packageJson.name = m.name) :
    findPackageDir packageJson dir fs = dir ∧
    ∀ es : List String, findPackageDir packageJson dir ⟨es, fs.read⟩ = dir := by
  have hsame : ∀ es : List String,
      isSamePackage packageJson dir ⟨es, fs.read⟩ = true := by
    intro es
    unfold isSamePackage readManifestOrEmpty
    show (packageJson.name ==
      (match fs.read dir with
        | .ok m => m
        | .enoent => ⟨none, none, false⟩
        | .err => ⟨none, none, false⟩).name) = true
    rw [hread, hname]
    simp
  have h1 : isSamePackage packageJson dir fs = true := hsame fs.entries
  constructor
  · unfold findPackageDir
    simp [h1]
  · intro es
    unfold findPackageDir
    simp [hsame es]

/-- C9 witness: the root manifest of `fsSearch` is named `zzz`; resolving
`zzz` returns the root. -/
theorem findPackageDir_root_match_witness :
    (fsSearch.read "root" = .ok ⟨some "zzz", none, false⟩ ∧
     (⟨some "zzz", none, false⟩ : Manifest).name =
       (⟨some "zzz", none, false⟩ : Manifest).name) ∧
    findPackageDir ⟨some "zzz", none, false⟩ "root" fsSearch = "root" :=
  ⟨⟨rfl, rfl⟩,
   (findPackageDir_root_match ⟨some "zzz", none, false⟩ "root" fsSearch
     ⟨some "zzz", none, false⟩ rfl rfl).1⟩

/-- C8: when the root manifest does not match, the resolver returns the
first enumerated candidate (root excluded) whose manifest name equals the
target; a candidate whose manifest read fails (missing or malformed) is
treated as a non-match without aborting; no match falls back to the root
directory; and the result is never the empty string. -/
theorem findPackageDir_search (packageJson : Manifest) (dir : String)
    (fs : FileSys)
    (hroot : isSamePackage packageJson dir fs = false) (hdir : dir ≠ "") :
    (∀ d, (candidateDirs dir fs).find?
        (fun c => isSamePackage packageJson c fs) = some d →
      findPackageDir packageJson dir fs = d) ∧
    ((candidateDirs dir fs).find?
        (fun c => isSamePackage packageJson c fs) = none →
      findPackageDir packageJson dir fs = dir) ∧
    (∀ d, packageJson.name ≠ none →
      (fs.read d = .enoent ∨ fs.read d = .err) →
      isSamePackage packageJson d fs = false) ∧
    findPackageDir packageJson dir fs ≠ "" := by
  have hfd : findPackageDir packageJson dir fs =
      match (candidateDirs dir fs).find?
          (fun c => isSamePackage packageJson c fs) with
      | some d => if d == "" then dir else d
      | none => dir := by
    unfold findPackageDir
    rw [lookForPackageDir_eq_find]
    simp [hroot]
  refine ⟨?_, ?_, ?_, ?_⟩
  · intro d hd
    have hne : d ≠ "" :=
      candidateDirs_ne_empty dir fs d (List.mem_of_find?_eq_some hd)
    rw [hfd, hd]
    simp [hne]
  · intro hd
    rw [hfd, hd]
  · intro d hname hfail
    obtain ⟨n, hn⟩ := Option.ne_none_iff_exists'.mp hname
    unfold isSamePackage readManifestOrEmpty
    rcases hfail with hf | hf <;> rw [hf] <;> simp [hn]
  · rw [hfd]
    cases hfind : (candidateDirs dir fs).find?
        (fun c => isSamePackage packageJson c fs) with
    | none => exact hdir
    | some d =>
      have hne : d ≠ "" :=
        candidateDirs_ne_empty dir fs d (List.mem_of_find?_eq_some hfind)
      simp [hne]

/-- C8 witness: resolving `a` in `fsSearch` skips the unreadable
`packages/foo` candidate and returns `packages/bar`. -/
theorem findPackageDir_search_witness :
    (isSamePackage ⟨some "a", none, false⟩ "root" fsSearch = false ∧
     ("root" : String) ≠ "") ∧
    findPackageDir ⟨some "a", none, false⟩ "root" fsSearch =
      "root/packages/bar" :=
  ⟨⟨rfl, by decide⟩,
   (findPackageDir_search ⟨some "a", none, false⟩ "root" fsSearch rfl
     (by decide)).1 "root/packages/bar" rfl⟩

end NpmsAnalyzer
